import Mathlib

/-!
Verification development for the `front/models.py` persistence layer of the
bikeanjo cyclist-mentorship application.  The Python module is shallowly
embedded: choice tables become association lists, model rows become
structures, Django querysets become list filters, Python `datetime`
values become integers (only their order matters), and the Python
generator `help_labels` becomes the list of labels it yields.
-/

namespace Bikeanjo

/-- `CYCLIST_ROLES` choice table: stored code paired with display label. -/
def CYCLIST_ROLES : List (String × String) :=
  [("volunteer", "Volunteer"),
   ("requester", "Requester")]

/-- `HELP_OFFER` choice table: power-of-two codes for offered-help topics. -/
def HELP_OFFER : List (Int × String) :=
  [(1, "Teach someone to ride a bike"),
   (2, "Follow beginners on cycling"),
   (4, "Advice about safe routes"),
   (8, "Participating in the events of Bike Anjos")]

/-- `HELP_REQUEST` choice table: power-of-two codes for requested-help topics. -/
def HELP_REQUEST : List (Int × String) :=
  [(16, "Learn to ride a bike"),
   (32, "Pratice cycling"),
   (64, "Monitoring on traffic"),
   (128, "Route recomendation")]

/-- `HELP = HELP_OFFER + HELP_REQUEST` (tuple concatenation). -/
def HELP : List (Int × String) := HELP_OFFER ++ HELP_REQUEST

/-- `VOLUNTEER_EXPERIENCE` choice table. -/
def VOLUNTEER_EXPERIENCE : List (String × String) :=
  [("less than 1 year", "Less than 1 year"),
   ("from 1 to 2 years", "From 1 to 2 years"),
   ("from 2 to 4 years", "From 2 to 4 years"),
   ("more than 4 years", "More than 4 years")]

/-- `REQUESTER_EXPERIENCE` choice table. -/
def REQUESTER_EXPERIENCE : List (String × String) :=
  [("do not know pedaling yet", "I do not know pedaling yet"),
   ("no experience in traffic", "I know cycling, but have no experience in traffic"),
   ("already ride a long time", "Already ride a long time but not daily"),
   ("use bike almost every day", "I use bike almost every day")]

/-- `EXPERIENCE = VOLUNTEER_EXPERIENCE + REQUESTER_EXPERIENCE`. -/
def EXPERIENCE : List (String × String) := VOLUNTEER_EXPERIENCE ++ REQUESTER_EXPERIENCE

/-- `BIKE_USE` choice table. -/
def BIKE_USE : List (String × String) :=
  [("everyday", "Everyday"),
   ("just few days a week/month", "Just few days a week/month"),
   ("once a week", "Once a week"),
   ("no, i use for leisure", "No, I use for leisure")]

/-- A `User` row: the cyclist-profile fields added on top of `AbstractUser`.
`help_with` is a Python `int` (Django `IntegerField`), hence `Int`. -/
structure User where
  country : String := ""
  city : String := ""
  gender : String := ""
  ride_experience : String := ""
  bike_use : String := ""
  help_with : Int := 0
  initiatives : String := ""
  role : String := ""

/-- The loop body of `User.help_labels`, recursing over the remaining
vocabulary entries.  Faithful to the source:

    for code, label in HELP:
        if self.help_with >= code:
            break
        if self.help_with & code:
            yield label

`break` ends the generator, so it returns `[]`; Python `&` on (possibly
negative) ints is two's-complement `Int.land`; truthiness of `w & code`
is `≠ 0`. -/
def userHelpLabelsAux (w : Int) : List (Int × String) → List String
  | [] => []
  | (code, label) :: rest =>
    if w ≥ code then []
    else if w.land code ≠ 0 then label :: userHelpLabelsAux w rest
    else userHelpLabelsAux w rest

/-- `User.help_labels`: the sequence of labels the generator yields. -/
def User.help_labels (u : User) : List String :=
  userHelpLabelsAux u.help_with HELP

/-- `HelpRequest.STATUS` ordered choice table. -/
def STATUS : List (String × String) :=
  [("new", "New"),
   ("assigned", "Assigned"),
   ("canceled", "Canceled"),
   ("finished", "Finished")]

/-- `HelpRequest.HELP_OPTIONS = dict(HELP_REQUEST)`: an integer-keyed
dictionary; `dict.get(k, d)` is association-list lookup with default. -/
def HELP_OPTIONS : List (Int × String) := HELP_REQUEST

/-- A `HelpRequest` row.  `requester` is a required foreign key (an
unset reference is `none` in memory and must be rejected on write);
`volunteer` is nullable.  Timestamps (`created_date`/`modified_date`
from `BaseModel`, `last_access`) are integers: only their order is used. -/
structure HelpRequest where
  requester : Option Nat
  volunteer : Option Nat := none
  help_with : Int := 0
  status : String := "new"
  last_access : Int
  created_date : Int
  modified_date : Int

namespace HelpStatusQuerySet

/-- `self.filter(status__in=['new', 'assigned'])`. -/
def active (qs : List HelpRequest) : List HelpRequest :=
  qs.filter (fun r => ["new", "assigned"].contains r.status)

/-- `self.filter(status='new')`. -/
def new (qs : List HelpRequest) : List HelpRequest :=
  qs.filter (fun r => r.status == "new")

/-- `self.filter(status='assigned')`. -/
def assigned (qs : List HelpRequest) : List HelpRequest :=
  qs.filter (fun r => r.status == "assigned")

/-- `self.filter(status__in=['canceled', 'attended'])`. -/
def closed (qs : List HelpRequest) : List HelpRequest :=
  qs.filter (fun r => ["canceled", "attended"].contains r.status)

/-- `self.filter(status='canceled')`. -/
def canceled (qs : List HelpRequest) : List HelpRequest :=
  qs.filter (fun r => r.status == "canceled")

/-- `self.filter(status='attended')`. -/
def attended (qs : List HelpRequest) : List HelpRequest :=
  qs.filter (fun r => r.status == "attended")

end HelpStatusQuerySet

/-- `HelpRequest.has_updates`: `return self.last_access < self.modified_date`. -/
def HelpRequest.has_updates (r : HelpRequest) : Bool :=
  r.last_access < r.modified_date

/-- `HelpRequest.get_help_label`:
`return HelpRequest.HELP_OPTIONS.get(self.help_with, '')`. -/
def HelpRequest.get_help_label (r : HelpRequest) : String :=
  (HELP_OPTIONS.lookup r.help_with).getD ""

/-- The loop body of `HelpRequest.help_labels`; the source is
character-for-character the same loop as `User.help_labels`. -/
def helpRequestHelpLabelsAux (w : Int) : List (Int × String) → List String
  | [] => []
  | (code, label) :: rest =>
    if w ≥ code then []
    else if w.land code ≠ 0 then label :: helpRequestHelpLabelsAux w rest
    else helpRequestHelpLabelsAux w rest

/-- `HelpRequest.help_labels`: the sequence of labels the generator yields. -/
def HelpRequest.help_labels (r : HelpRequest) : List String :=
  helpRequestHelpLabelsAux r.help_with HELP

/-- Instantiating `HelpRequest(requester=q, help_with=w)` and saving it at
logical instant `now`: field defaults give `status='new'`, `volunteer=None`;
`last_access` defaults to `timezone.now`, and `BaseModel`'s
`auto_now_add`/`auto_now` stamp `created_date`/`modified_date` at the save,
all at the same instant. -/
def HelpRequest.create (q : Nat) (w : Int) (now : Int) : HelpRequest :=
  { requester := some q, volunteer := none, help_with := w, status := "new",
    last_access := now, created_date := now, modified_date := now }

/-- A later save of the row at instant `t`: `auto_now` refreshes
`modified_date`; `last_access` is untouched (`editable=False`, set only
by the requester's views). -/
def HelpRequest.resave (r : HelpRequest) (t : Int) : HelpRequest :=
  { r with modified_date := t }

/-- The plain mappings returned by `Track.json` / `Point.json`.
Python dicts preserve insertion order, so an object is an ordered
association list; coordinates are numbers (embedded as `ℚ`). -/
inductive JValue where
  | str : String → JValue
  | num : Rat → JValue
  | int : Int → JValue
  | arr : List JValue → JValue
  | obj : List (String × JValue) → JValue

/-- A `Track` row.  `track` is a `LineString`: an ordered list of
`(lon, lat)` coordinates.  `id` is the database primary key: `none`
until the row is saved (Django assigns positive auto-increment ids). -/
structure Track where
  user : Nat
  start : String
  «end» : String
  track : List (Rat × Rat)
  id : Option Int := none

/-- `Track.json`: builds `{'type': 'LineString', 'coordinates': [p for p
in self.track], 'properties': {'start': ..., 'end': ...}}` and then, when
`self.id` is truthy (`if self.id:` — `None` and `0` are falsy), adds
`d['properties']['id'] = self.id` at the end of the inner dict. -/
def Track.json (t : Track) : List (String × JValue) :=
  let props := [("start", JValue.str t.start), ("end", JValue.str t.«end»)]
  let props := match t.id with
    | some i => if i ≠ 0 then props ++ [("id", JValue.int i)] else props
    | none => props
  [("type", JValue.str "LineString"),
   ("coordinates", JValue.arr (t.track.map (fun p => JValue.arr [JValue.num p.1, JValue.num p.2]))),
   ("properties", JValue.obj props)]

/-- A `Point` row.  `coords` is a single `(lon, lat)` coordinate;
`coords.get_coords()` returns it as a flat pair. -/
structure Point where
  user : Nat
  address : String
  coords : Rat × Rat
  id : Option Int := none

/-- `Point.json`: builds `{'type': 'LineString', 'coordinates':
self.coords.get_coords(), 'properties': {'address': ...}}` and then, when
`self.id` is truthy, adds `d['properties']['id'] = self.id`. -/
def Point.json (p : Point) : List (String × JValue) :=
  let props := [("address", JValue.str p.address)]
  let props := match p.id with
    | some i => if i ≠ 0 then props ++ [("id", JValue.int i)] else props
    | none => props
  [("type", JValue.str "LineString"),
   ("coordinates", JValue.arr [JValue.num p.coords.1, JValue.num p.coords.2]),
   ("properties", JValue.obj props)]

/-- Modelled from the spec: the write-time schema validation ("field
length/type/choice-membership enforced by the storage layer at write
time", spec §7) is framework machinery not present in `src/`; what *is*
in `src/` are the field declarations it acts on.  A `CharField` with
`choices` and `blank=True` accepts the empty string or a declared code. -/
def choiceFieldValid (choices : List String) (blank : Bool) (v : String) : Bool :=
  (blank && (v == "")) || choices.contains v

/-- Modelled from the spec: write validation for a `User` row, from the
field declarations in `src/front/models.py`.  `ride_experience`,
`bike_use`, `gender` and `role` declare `choices` (all with
`blank=True`); `help_with = models.IntegerField(default=0)` declares
*no* choices (the source comments them out: `# choices=HELP`) and no
validators, so no constraint on it is checked. -/
def User.validateWrite (u : User) : Bool :=
  choiceFieldValid (EXPERIENCE.map Prod.fst) true u.ride_experience &&
  choiceFieldValid (BIKE_USE.map Prod.fst) true u.bike_use &&
  choiceFieldValid (CYCLIST_ROLES.map Prod.fst) true u.role

/-- Modelled from the spec: write validation for a `HelpRequest` row,
from the field declarations.  `status` declares `choices=STATUS.items()`;
`requester` is a non-nullable foreign key, so an unset reference is
rejected; `help_with` again declares no choices and no validators. -/
def HelpRequest.validateWrite (r : HelpRequest) : Bool :=
  (STATUS.map Prod.fst).contains r.status && r.requester.isSome

/-- The inner `properties` dictionary of a serialized `Track`/`Point`. -/
def jsonProps (d : List (String × JValue)) : List (String × JValue) :=
  match d.lookup "properties" with
  | some (JValue.obj l) => l
  | _ => []

/-- A `User` row whose `help_with` bitmask is negative but whose
choice-bearing fields all hold declared codes. -/
def negMaskUser : User :=
  { ride_experience := "less than 1 year", bike_use := "everyday",
    role := "requester", help_with := -1 }

/-- A saved `Track` row with database identifier 7. -/
def track7 : Track :=
  { user := 1, start := "a", «end» := "b", track := [], id := some 7 }

/-- An unsaved `Point` row at longitude `-46.6`, latitude `-23.5`. -/
def pointSP : Point :=
  { user := 1, address := "home", coords := (-46.6, -23.5) }

/-- The two `help_labels` loops are the same recursion over any
vocabulary tail. -/
theorem helpLabelsAux_agree (w : Int) (l : List (Int × String)) :
    userHelpLabelsAux w l = helpRequestHelpLabelsAux w l := by
  induction l with
  | nil => rfl
  | cons hd tl ih =>
    obtain ⟨code, label⟩ := hd
    simp only [userHelpLabelsAux, helpRequestHelpLabelsAux, ih]

/-- The generator of the source code never yields anything on a
non-negative mask: the guard `help_with >= code` fires at the first
vocabulary entry `(1, _)` whenever `help_with ≥ 1`, and a zero mask has
no set bits. -/
theorem userHelpLabels_empty_of_nonneg (u : User) (h : 0 ≤ u.help_with) :
    u.help_labels = [] := by
  unfold User.help_labels
  rcases eq_or_lt_of_le h with h0 | h1
  · rw [← h0]
    decide
  · unfold HELP HELP_OFFER HELP_REQUEST
    rw [List.cons_append, userHelpLabelsAux, if_pos (by omega)]

end Bikeanjo

namespace Bikeanjo

/-- C8: `HELP` is the four offer-topic entries (codes 1, 2, 4, 8)
followed by the four request-topic entries (codes 16, 32, 64, 128) in
declaration order; the eight codes are distinct powers of two in
strictly ascending order. -/
theorem help_vocabulary_order_spec :
    HELP = HELP_OFFER ++ HELP_REQUEST ∧
    HELP_OFFER.length = 4 ∧ HELP_REQUEST.length = 4 ∧
    HELP.map Prod.fst = [1, 2, 4, 8, 16, 32, 64, 128] ∧
    HELP.map Prod.fst = [2 ^ 0, 2 ^ 1, 2 ^ 2, 2 ^ 3, 2 ^ 4, 2 ^ 5, 2 ^ 6, 2 ^ 7] ∧
    List.Chain' (fun a b => a < b) (HELP.map Prod.fst) ∧
    (HELP.map Prod.fst).Nodup := by
  refine ⟨rfl, rfl, rfl, rfl, by decide, ?_, by decide⟩
  norm_num [HELP, HELP_OFFER, HELP_REQUEST, List.chain'_cons]

/-- C1 (code bug): the source loop breaks when `help_with >= code`
instead of `help_with < code`, so for the scenario mask `1 | 4 = 5` the
generator yields nothing at all — not the two labels the spec promises. -/
theorem help_labels_inverted_break_yields_nothing :
    User.help_labels { help_with := 5 } = [] ∧
    User.help_labels { help_with := 5 } ≠
      ["Teach someone to ride a bike", "Advice about safe routes"] := by
  decide

/-- C10: `User.help_labels` and `HelpRequest.help_labels` are the same
function of `help_with`: instances with equal masks yield identical
label sequences. -/
theorem help_labels_user_equals_helprequest (u : User) (r : HelpRequest)
    (h : u.help_with = r.help_with) : u.help_labels = r.help_labels := by
  unfold User.help_labels HelpRequest.help_labels
  rw [h, helpLabelsAux_agree]

/-- Witness for C10 at `help_with = 5` on both sides. -/
theorem help_labels_user_equals_helprequest_witness :
    ({ help_with := 5 } : User).help_with = (HelpRequest.create 1 5 0).help_with ∧
    ({ help_with := 5 } : User).help_labels = (HelpRequest.create 1 5 0).help_labels :=
  ⟨rfl, help_labels_user_equals_helprequest { help_with := 5 } (HelpRequest.create 1 5 0) rfl⟩

/-- C2: `active()` keeps exactly the requests with status `new` or
`assigned`, `closed()` exactly those with status `canceled` or
`attended`; the two are disjoint on every collection, and a request with
the declared terminal status `finished` is in neither. -/
theorem status_filters_membership_spec (qs : List HelpRequest) (r : HelpRequest) :
    (r ∈ HelpStatusQuerySet.active qs ↔
      r ∈ qs ∧ (r.status = "new" ∨ r.status = "assigned")) ∧
    (r ∈ HelpStatusQuerySet.closed qs ↔
      r ∈ qs ∧ (r.status = "canceled" ∨ r.status = "attended")) ∧
    ¬(r ∈ HelpStatusQuerySet.active qs ∧ r ∈ HelpStatusQuerySet.closed qs) ∧
    (r.status = "finished" →
      r ∉ HelpStatusQuerySet.active qs ∧ r ∉ HelpStatusQuerySet.closed qs) := by
  have ha : r ∈ HelpStatusQuerySet.active qs ↔
      r ∈ qs ∧ (r.status = "new" ∨ r.status = "assigned") := by
    simp [HelpStatusQuerySet.active, List.mem_filter]
  have hc : r ∈ HelpStatusQuerySet.closed qs ↔
      r ∈ qs ∧ (r.status = "canceled" ∨ r.status = "attended") := by
    simp [HelpStatusQuerySet.closed, List.mem_filter]
  refine ⟨ha, hc, ?_, ?_⟩
  · rintro ⟨h1, h2⟩
    rcases (ha.mp h1).2 with h | h <;> rcases (hc.mp h2).2 with h' | h' <;>
      rw [h] at h' <;> exact absurd h' (by decide)
  · intro hf
    constructor
    · intro h1
      rcases (ha.mp h1).2 with h | h <;> rw [hf] at h <;> exact absurd h (by decide)
    · intro h2
      rcases (hc.mp h2).2 with h | h <;> rw [hf] at h <;> exact absurd h (by decide)

/-- Witness for C2 on a one-element collection holding a fresh request. -/
theorem status_filters_membership_spec_witness :
    HelpRequest.create 1 16 0 ∈
      HelpStatusQuerySet.active [HelpRequest.create 1 16 0] ∧
    HelpRequest.create 1 16 0 ∉
      HelpStatusQuerySet.closed [HelpRequest.create 1 16 0] := by
  have h := status_filters_membership_spec [HelpRequest.create 1 16 0] (HelpRequest.create 1 16 0)
  refine ⟨h.1.mpr ⟨List.mem_singleton.mpr rfl, Or.inl rfl⟩, fun hc => ?_⟩
  exact absurd ((h.2.1.mp hc).2) (by decide)

/-- C3: `has_updates()` is true iff `last_access` is strictly earlier
than `modified_date`, and in particular false when the two coincide. -/
theorem has_updates_iff_spec (r : HelpRequest) :
    (r.has_updates = true ↔ r.last_access < r.modified_date) ∧
    (r.last_access = r.modified_date → r.has_updates = false) := by
  constructor
  · simp [HelpRequest.has_updates]
  · intro h
    simp [HelpRequest.has_updates, h]

/-- Witness for C3: a row written once at instant 0 reports no updates. -/
theorem has_updates_iff_spec_witness :
    (HelpRequest.create 1 16 0).last_access = (HelpRequest.create 1 16 0).modified_date ∧
    (HelpRequest.create 1 16 0).has_updates = false :=
  ⟨rfl, (has_updates_iff_spec (HelpRequest.create 1 16 0)).2 rfl⟩

/-- C7: a `HelpRequest` created with the field defaults has status `new`
and no volunteer; it is kept by `active()` and dropped by `closed()` on
any collection containing it, `has_updates()` is false right after
creation, and becomes true once the row is modified after `last_access`. -/
theorem fresh_helprequest_spec (q : Nat) (w : Int) (now : Int)
    (qs : List HelpRequest) (hmem : HelpRequest.create q w now ∈ qs) :
    (HelpRequest.create q w now).status = "new" ∧
    (HelpRequest.create q w now).volunteer = none ∧
    HelpRequest.create q w now ∈ HelpStatusQuerySet.active qs ∧
    HelpRequest.create q w now ∉ HelpStatusQuerySet.closed qs ∧
    (HelpRequest.create q w now).has_updates = false ∧
    (∀ t, now < t → ((HelpRequest.create q w now).resave t).has_updates = true) := by
  refine ⟨rfl, rfl, ?_, ?_, ?_, ?_⟩
  · exact List.mem_filter.mpr ⟨hmem, by simp [HelpRequest.create]⟩
  · intro h
    have := (List.mem_filter.mp h).2
    simp [HelpRequest.create] at this
  · simp [HelpRequest.create, HelpRequest.has_updates]
  · intro t ht
    simp [HelpRequest.create, HelpRequest.resave, HelpRequest.has_updates, ht]

/-- Witness for C7 with requester 1, mask 16, creation instant 0,
modification instant 1. -/
theorem fresh_helprequest_spec_witness :
    HelpRequest.create 1 16 0 ∈ [HelpRequest.create 1 16 0] ∧
    (HelpRequest.create 1 16 0).status = "new" ∧
    (HelpRequest.create 1 16 0).has_updates = false ∧
    ((HelpRequest.create 1 16 0).resave 1).has_updates = true := by
  have h := fresh_helprequest_spec 1 16 0 [HelpRequest.create 1 16 0]
    (List.mem_singleton.mpr rfl)
  exact ⟨List.mem_singleton.mpr rfl, h.1, h.2.2.2.2.1, h.2.2.2.2.2 1 (by decide)⟩

/-- C4: `Point.json()` labels the geometry `LineString` even though it
holds a single point, puts the stored coordinate as a flat `[lon, lat]`
pair under `coordinates`, and carries the address under `properties`;
for coordinates `(-46.6, -23.5)` the pair is exactly `[-46.6, -23.5]`. -/
theorem point_json_shape_spec (p : Point) :
    (Point.json p).lookup "type" = some (JValue.str "LineString") ∧
    (Point.json p).lookup "coordinates" =
      some (JValue.arr [JValue.num p.coords.1, JValue.num p.coords.2]) ∧
    (jsonProps (Point.json p)).lookup "address" = some (JValue.str p.address) ∧
    (p.coords = (-46.6, -23.5) →
      (Point.json p).lookup "coordinates" =
        some (JValue.arr [JValue.num (-46.6), JValue.num (-23.5)])) := by
  have h2 : (Point.json p).lookup "coordinates" =
      some (JValue.arr [JValue.num p.coords.1, JValue.num p.coords.2]) := rfl
  refine ⟨rfl, h2, ?_, fun h => by rw [h] at h2; simpa using h2⟩
  obtain ⟨u, addr, coords, id⟩ := p
  cases id with
  | none => rfl
  | some i =>
    by_cases hi : i = 0 <;> simp [Point.json, jsonProps, hi, List.lookup]

/-- Witness for C4 on a concrete unsaved point at `(-46.6, -23.5)`. -/
theorem point_json_shape_spec_witness :
    pointSP.coords = (-46.6, -23.5) ∧
    (Point.json pointSP).lookup "coordinates" =
      some (JValue.arr [JValue.num (-46.6), JValue.num (-23.5)]) :=
  ⟨rfl, (point_json_shape_spec pointSP).2.2.2 rfl⟩

/-- C5: `Track.json()` has exactly the keys `type`, `coordinates`,
`properties` (in that order); `properties` carries `start` and `end`, and
carries `id` exactly when the row has a persistent (positive) identifier
— in particular `id: 7` for a saved row with identifier 7. -/
theorem track_json_shape_spec (t : Track) (hpos : ∀ i, t.id = some i → 0 < i) :
    (Track.json t).map Prod.fst = ["type", "coordinates", "properties"] ∧
    (jsonProps (Track.json t)).lookup "start" = some (JValue.str t.start) ∧
    (jsonProps (Track.json t)).lookup "end" = some (JValue.str t.«end») ∧
    (((jsonProps (Track.json t)).lookup "id").isSome ↔ t.id.isSome) ∧
    (t.id = some 7 → (jsonProps (Track.json t)).lookup "id" = some (JValue.int 7)) := by
  obtain ⟨u, s, e, tr, id⟩ := t
  cases id with
  | none =>
    refine ⟨rfl, rfl, rfl, by simp [Track.json, jsonProps, List.lookup], by simp⟩
  | some i =>
    have hi : i ≠ 0 := by
      have := hpos i rfl
      omega
    refine ⟨rfl, ?_, ?_, ?_, ?_⟩
    · simp [Track.json, jsonProps, hi, List.lookup]
    · simp [Track.json, jsonProps, hi, List.lookup]
    · simp [Track.json, jsonProps, hi, List.lookup]
    · intro h7
      have : i = 7 := by
        simpa using congrArg (fun o => o.getD 0) h7
      subst this
      simp [Track.json, jsonProps, hi, List.lookup]

/-- Witness for C5 on a saved track with identifier 7. -/
theorem track_json_shape_spec_witness :
    (∀ i, track7.id = some i → 0 < i) ∧
    (jsonProps (Track.json track7)).lookup "id" = some (JValue.int 7) := by
  have hp : ∀ i, track7.id = some i → 0 < i := by
    intro i h
    simp only [track7, Option.some.injEq] at h
    omega
  exact ⟨hp, (track_json_shape_spec track7 hp).2.2.2.2 rfl⟩

/-- C6 counterexample: a `User` write whose `help_with` bitmask is `-1`
(with every choice-bearing field holding a declared code) passes every
validation the field declarations induce — `help_with` is a bare
`IntegerField` whose `choices=HELP` is commented out in the source and
which declares no validators, so a negative bitmask is not rejected. -/
theorem negative_mask_write_not_rejected :
    negMaskUser.help_with < 0 ∧ User.validateWrite negMaskUser = true := by
  decide

/-- C6 amended: out-of-vocabulary `status` values, missing `requester`
references and out-of-vocabulary non-blank `role` values are rejected by
the declared-field validation, while `help_with` is entirely
unconstrained: changing it (to a negative value or anything else) never
changes the validation verdict. -/
theorem declared_field_validation_spec (r : HelpRequest) (u : User) :
    (r.status ∉ STATUS.map Prod.fst → HelpRequest.validateWrite r = false) ∧
    (r.requester = none → HelpRequest.validateWrite r = false) ∧
    (u.role ≠ "" → u.role ∉ CYCLIST_ROLES.map Prod.fst → User.validateWrite u = false) ∧
    (∀ w : Int, User.validateWrite { u with help_with := w } = User.validateWrite u) := by
  refine ⟨?_, ?_, ?_, fun w => rfl⟩
  · intro h
    simp [HelpRequest.validateWrite, h]
  · intro h
    simp [HelpRequest.validateWrite, h]
  · intro h1 h2
    simp [User.validateWrite, choiceFieldValid, h1, h2]

/-- Witness for C6's amended claim: the undeclared status token
`attended` is rejected, and making `negMaskUser`'s mask negative did not
change its (accepting) verdict. -/
theorem declared_field_validation_spec_witness :
    HelpRequest.validateWrite
      { requester := some 1, status := "attended",
        last_access := 0, created_date := 0, modified_date := 0 } = false ∧
    User.validateWrite { negMaskUser with help_with := -1 } =
      User.validateWrite negMaskUser := by
  constructor
  · refine (declared_field_validation_spec
      { requester := some 1, status := "attended",
        last_access := 0, created_date := 0, modified_date := 0 } negMaskUser).1 ?_
    decide
  · exact (declared_field_validation_spec
      (HelpRequest.create 1 16 0) negMaskUser).2.2.2 (-1)

/-- C9: `get_help_label()` returns the request-topic label exactly when
`help_with` equals one of the codes 16, 32, 64, 128; every other value —
0, multi-bit masks such as 48, offer-topic codes — gives the empty
string. -/
theorem get_help_label_exact_code_spec (r : HelpRequest) :
    (r.help_with = 16 → r.get_help_label = "Learn to ride a bike") ∧
    (r.help_with = 32 → r.get_help_label = "Pratice cycling") ∧
    (r.help_with = 64 → r.get_help_label = "Monitoring on traffic") ∧
    (r.help_with = 128 → r.get_help_label = "Route recomendation") ∧
    (r.help_with ≠ 16 → r.help_with ≠ 32 → r.help_with ≠ 64 → r.help_with ≠ 128 →
      r.get_help_label = "") := by
  refine ⟨?_, ?_, ?_, ?_, ?_⟩
  · intro h
    simp [HelpRequest.get_help_label, HELP_OPTIONS, HELP_REQUEST, List.lookup, h]
  · intro h
    simp [HelpRequest.get_help_label, HELP_OPTIONS, HELP_REQUEST, List.lookup, h]
  · intro h
    simp [HelpRequest.get_help_label, HELP_OPTIONS, HELP_REQUEST, List.lookup, h]
  · intro h
    simp [HelpRequest.get_help_label, HELP_OPTIONS, HELP_REQUEST, List.lookup, h]
  · intro h1 h2 h3 h4
    have e1 : (r.help_with == 16) = false := beq_eq_false_iff_ne.mpr h1
    have e2 : (r.help_with == 32) = false := beq_eq_false_iff_ne.mpr h2
    have e3 : (r.help_with == 64) = false := beq_eq_false_iff_ne.mpr h3
    have e4 : (r.help_with == 128) = false := beq_eq_false_iff_ne.mpr h4
    simp [HelpRequest.get_help_label, HELP_OPTIONS, HELP_REQUEST, List.lookup,
      e1, e2, e3, e4]

/-- Witness for C9: mask 48 (a two-bit mask) gives the empty string,
mask 16 gives its label. -/
theorem get_help_label_exact_code_spec_witness :
    (HelpRequest.create 1 48 0).get_help_label = "" ∧
    (HelpRequest.create 1 16 0).get_help_label = "Learn to ride a bike" :=
  ⟨(get_help_label_exact_code_spec (HelpRequest.create 1 48 0)).2.2.2.2
      (by decide) (by decide) (by decide) (by decide),
   (get_help_label_exact_code_spec (HelpRequest.create 1 16 0)).1 rfl⟩

end Bikeanjo
